import Mathlib

/-!
Verification of the signal-detection and admission pipeline of the
DEX/CEX arbitrage bot (backend sources: `utils.py`,
`signal_verification.py`, `xt_client.py`, `dex_client.py`, `bot.py`).

Python floats are modelled as rationals (`ℚ`), Python dicts with fixed
keys as structures, `None` as `Option`, and the human-readable reason
strings as an inductive `Reason` type (one constructor per distinct
message produced by the source).  Network effects (HTTP calls, order
submission) are modelled as oracle functions carried in an environment
record, and the outward-visible effects of a run are collected in an
explicit event list.
-/

namespace Bott

/-- Spread band / admission thresholds and the live-trading switch,
mirroring the fields of `config.Config` consumed by
`signal_verification.py`, `xt_client.py` and `bot.py`. -/
structure BotConfig where
  min_spread : ℚ
  max_spread : ℚ
  min_liquidity : ℚ
  min_volume : ℚ
  allow_live_trading : Bool
  deriving Repr, DecidableEq

/-- The default thresholds of `config.py` (`MIN_SPREAD_PERCENT=2.0`,
`MAX_SPREAD_PERCENT=3.0`, `MIN_LIQUIDITY_USD=10000`,
`MIN_VOLUME_24H_USD=50000`); live trading defaults to off. -/
def defaultConfig : BotConfig :=
  { min_spread := 2, max_spread := 3, min_liquidity := 10000,
    min_volume := 50000, allow_live_trading := false }

/-- Model of `calculate_spread` from `utils.py` (lines 53–58): returns `0` when
`cex_price == 0`, otherwise `abs(((dex_price - cex_price) / cex_price) * 100)`. -/
def calculate_spread (dex_price cex_price : ℚ) : ℚ :=
  if cex_price = 0 then 0
  else |(dex_price - cex_price) / cex_price * 100|

/-- The base-token sub-dict of a DEX pair (`base_token` in
`dex_client.extract_pair_data`). -/
structure BaseToken where
  address : String
  symbol : String
  deriving Repr, DecidableEq

/-- The extracted DEX pair data consumed by `verify_signal` and
`process_dex_pair`: `price_usd`, `liquidity.usd`, `volume_24h`,
`base_token`, `chain`, `dex`. -/
structure PairData where
  chain : String
  dex : String
  base_token : BaseToken
  price_usd : ℚ
  liquidity_usd : ℚ
  volume_24h : ℚ
  deriving Repr, DecidableEq

/-- A CEX ticker (the `xt_data` dict): just the `price` field that
`verify_signal` reads (`float(xt_data.get('price', 0))`). -/
structure XtData where
  price : ℚ
  deriving Repr, DecidableEq

/-- The `action` strings of `verify_signal`: `'skip'`, `'notify'`,
`'execute'`. -/
inductive Action where
  | skip
  | notify
  | execute
  deriving Repr, DecidableEq, BEq

/-- The distinct human-readable reason messages appended by
`verify_signal` (the numeric interpolations of the f-strings are
presentation, not decision data). -/
inductive Reason where
  | notListed        -- 'Token not listed on XT'
  | invalidPrice     -- 'Invalid price data'
  | spreadTooLow     -- f'Spread too low: ...'
  | spreadTooHigh    -- f'Spread too high: ...'
  | liquidityTooLow  -- f'Liquidity too low: ...'
  | volumeTooLow     -- f'Volume too low: ...'
  | allCriteriaMet   -- 'All criteria met'
  deriving Repr, DecidableEq

/-- The result dict built by `verify_signal`. -/
structure VerificationResult where
  valid : Bool
  action : Action
  reasons : List Reason
  spread : ℚ
  dex_price : ℚ
  cex_price : ℚ
  deriving Repr, DecidableEq

/-- Model of `SignalVerification.verify_signal` (`signal_verification.py`, lines
17–82), with the thresholds the instance reads from `config` made
explicit parameters.  The decision order mirrors the source exactly:
missing ticker, zero price, spread below `min_spread`, spread above
`max_spread` (notify), liquidity, volume, then admission with
`action = execute` iff live trading is enabled. -/
def verify_signal (cfg : BotConfig) (dex_data : PairData)
    (xt_data : Option XtData) : VerificationResult :=
  match xt_data with
  | none =>
      { valid := false, action := .skip, reasons := [.notListed],
        spread := 0, dex_price := dex_data.price_usd, cex_price := 0 }
  | some xt =>
      if xt.price = 0 ∨ dex_data.price_usd = 0 then
        { valid := false, action := .skip, reasons := [.invalidPrice],
          spread := 0, dex_price := dex_data.price_usd, cex_price := xt.price }
      else if calculate_spread dex_data.price_usd xt.price < cfg.min_spread then
        { valid := false, action := .skip, reasons := [.spreadTooLow],
          spread := calculate_spread dex_data.price_usd xt.price,
          dex_price := dex_data.price_usd, cex_price := xt.price }
      else if calculate_spread dex_data.price_usd xt.price > cfg.max_spread then
        { valid := false, action := .notify, reasons := [.spreadTooHigh],
          spread := calculate_spread dex_data.price_usd xt.price,
          dex_price := dex_data.price_usd, cex_price := xt.price }
      else if dex_data.liquidity_usd < cfg.min_liquidity then
        { valid := false, action := .skip, reasons := [.liquidityTooLow],
          spread := calculate_spread dex_data.price_usd xt.price,
          dex_price := dex_data.price_usd, cex_price := xt.price }
      else if dex_data.volume_24h < cfg.min_volume then
        { valid := false, action := .skip, reasons := [.volumeTooLow],
          spread := calculate_spread dex_data.price_usd xt.price,
          dex_price := dex_data.price_usd, cex_price := xt.price }
      else
        { valid := true,
          action := if cfg.allow_live_trading then .execute else .notify,
          reasons := [.allCriteriaMet],
          spread := calculate_spread dex_data.price_usd xt.price,
          dex_price := dex_data.price_usd, cex_price := xt.price }

/-- Model of `SignalVerification.should_execute_trade` (`signal_verification.py`,
lines 84–90). -/
def should_execute_trade (cfg : BotConfig) (r : VerificationResult) : Bool :=
  r.valid && (r.action == .execute) && cfg.allow_live_trading

/-- The order parameters assembled by `XTClient.place_order`
(`xt_client.py`, lines 144–156): side and type are upper-cased, and a
price plus `timeInForce='GTC'` is attached only when a truthy price is
given for a `LIMIT` order.  Timestamp and signature are transport
details carried by the HTTP layer and are not decision data. -/
structure OrderRequest where
  symbol : String
  side : String
  order_type : String
  quantity : ℚ
  price : Option ℚ
  time_in_force : Option String
  deriving Repr, DecidableEq

/-- An accepted order as returned by the exchange (`result` of a
`rc = 0` response); `order_id` is `None` when the response lacks an
`orderId` field (`bot.py` reads it with default `'N/A'`). -/
structure OrderAck where
  order_id : Option String
  deriving Repr, DecidableEq

/-- An order-book snapshot (`XTClient.get_orderbook` result): bid and
ask levels as (price, quantity) pairs. -/
structure Orderbook where
  bids : List (ℚ × ℚ)
  asks : List (ℚ × ℚ)
  deriving Repr, DecidableEq

/-- Outward-visible effects of a run: order-book fetches, order
submissions to the exchange, and chat messages for signals and trades. -/
inductive Event where
  | fetchOrderbook (symbol : String)
  | submitOrder (req : OrderRequest)
  | signalNote (symbol : String)
  | tradeNote (symbol : String) (side : String) (quantity : ℚ) (order_id : String)
  deriving Repr, DecidableEq

/-- Model of `XTClient.place_order` (`xt_client.py`, lines 136–173).  The
live-trading check (lines 140–142) precedes everything else: when the
switch is off, `None` is returned and no request reaches the exchange.
Otherwise the request is built and submitted; `submit` abstracts the
signed HTTP POST together with its bounded retry: it yields the `result`
of an `rc = 0` response, and `none` for a non-zero result code or an
exception after retries. -/
def place_order (allow_live_trading : Bool)
    (submit : OrderRequest → Option OrderAck)
    (symbol side order_type : String) (quantity : ℚ) (price : Option ℚ) :
    Option OrderAck × List Event :=
  if allow_live_trading = false then (none, [])
  else
    let attach : Bool := match price with
      | some p => decide (¬p = 0) && (order_type.toUpper == "LIMIT")
      | none => false
    let req : OrderRequest :=
      { symbol := symbol, side := side.toUpper, order_type := order_type.toUpper,
        quantity := quantity,
        price := if attach then price else none,
        time_in_force := if attach then some "GTC" else none }
    (submit req, [.submitOrder req])

/-- The `signal_data` dict assembled in `TradingBot.process_dex_pair`
(`bot.py`, lines 79–91). -/
structure SignalData where
  chain : String
  dex : String
  base_token : BaseToken
  spread : ℚ
  dex_price : ℚ
  cex_price : ℚ
  liquidity : ℚ
  volume_24h : ℚ
  action : Action
  reasons : List Reason
  deriving Repr, DecidableEq

/-- A `trade_record` dict appended to `self.trades` (`bot.py`, lines
145–152). -/
structure TradeRecord where
  symbol : String
  side : String
  quantity : ℚ
  order_id : String
  signal_data : SignalData
  deriving Repr, DecidableEq

/-- The counters of `TradingBot.stats` consumed by the scan cycle. -/
structure Stats where
  signals_processed : ℕ
  signals_valid : ℕ
  trades_executed : ℕ
  errors_count : ℕ
  deriving Repr, DecidableEq

/-- The mutable bot state touched by the scan cycle: the stats counters
and the append-only trade list. -/
structure BotState where
  stats : Stats
  trades : List TradeRecord
  deriving Repr, DecidableEq

/-- The fresh state of `TradingBot.__init__` with no persisted trades. -/
def initialState : BotState :=
  { stats := { signals_processed := 0, signals_valid := 0,
               trades_executed := 0, errors_count := 0 },
    trades := [] }

/-- The network-facing collaborators of the bot as oracles:
`XTClient.find_symbol_by_address`, `XTClient.get_ticker`,
`XTClient.get_orderbook` (each already folding in retry/normalization:
`none` is the exhausted/absent outcome) and the exchange's response to
a submitted order. -/
structure BotEnv where
  find_symbol_by_address : String → Option String
  get_ticker : String → Option XtData
  get_orderbook : String → Option Orderbook
  submit_order : OrderRequest → Option OrderAck
  deriving Inhabited

/-- Model of `TradingBot.execute_trade` (`bot.py`, lines 110–169) as a state
transition returning the new state and the emitted events.  The source
order is kept: live-trading gate, order-book liveness fetch (abort when
absent), fixed quantity 100, side from the signed price difference
(`BUY` iff `dex_price < cex_price`), order placement via
`place_order`, and — only on an acknowledged order — counter increment,
trade-record append and trade chat message. -/
def execute_trade (cfg : BotConfig) (env : BotEnv) (symbol : String)
    (signal_data : SignalData) (s : BotState) : BotState × List Event :=
  if cfg.allow_live_trading = false then (s, [])
  else
    match env.get_orderbook symbol with
    | none => (s, [.fetchOrderbook symbol])
    | some _ =>
      let quantity : ℚ := 100
      let side : String :=
        if signal_data.dex_price < signal_data.cex_price then "BUY" else "SELL"
      let placed :=
        place_order cfg.allow_live_trading env.submit_order symbol side
          "MARKET" quantity none
      match placed.1 with
      | some ack =>
        let order_id := ack.order_id.getD "N/A"
        let record : TradeRecord :=
          { symbol := symbol, side := side, quantity := quantity,
            order_id := order_id, signal_data := signal_data }
        ({ stats := { s.stats with trades_executed := s.stats.trades_executed + 1 },
           trades := s.trades ++ [record] },
         .fetchOrderbook symbol :: placed.2 ++ [.tradeNote symbol side quantity order_id])
      | none => (s, .fetchOrderbook symbol :: placed.2)

/-- Model of `TradingBot.process_dex_pair` (`bot.py`, lines 45–108): guard on
missing token identity, symbol resolution (address lookup with the
`UPPER(symbol)_USDT` fallback when the lookup yields nothing), ticker
fetch (absent ⇒ counted and skipped), verification, signal chat message
for valid/notify results, and the conditional trade execution.  Returns
the new state, the emitted events and the boolean the coroutine
returns. -/
def process_dex_pair (cfg : BotConfig) (env : BotEnv) (s : BotState)
    (pair_data : PairData) : BotState × List Event × Bool :=
  let token_address := pair_data.base_token.address
  let token_symbol := pair_data.base_token.symbol
  if token_address = "" ∨ token_symbol = "" then (s, [], false)
  else
    let xt_symbol :=
      match env.find_symbol_by_address token_address with
      | some sym => if sym = "" then token_symbol.toUpper ++ "_USDT" else sym
      | none => token_symbol.toUpper ++ "_USDT"
    match env.get_ticker xt_symbol with
    | none =>
      ({ s with stats :=
          { s.stats with signals_processed := s.stats.signals_processed + 1 } },
       [], false)
    | some xt_ticker =>
      let verification := verify_signal cfg pair_data (some xt_ticker)
      let s1 : BotState := { s with stats :=
        { s.stats with signals_processed := s.stats.signals_processed + 1 } }
      let signal_data : SignalData :=
        { chain := pair_data.chain, dex := pair_data.dex,
          base_token := pair_data.base_token, spread := verification.spread,
          dex_price := verification.dex_price, cex_price := verification.cex_price,
          liquidity := pair_data.liquidity_usd, volume_24h := pair_data.volume_24h,
          action := verification.action, reasons := verification.reasons }
      if verification.valid = true ∨ verification.action = .notify then
        let s2 : BotState := { s1 with stats :=
          { s1.stats with signals_valid := s1.stats.signals_valid + 1 } }
        if should_execute_trade cfg verification then
          let stepped := execute_trade cfg env xt_symbol signal_data s2
          (stepped.1, .signalNote xt_symbol :: stepped.2, true)
        else
          (s2, [.signalNote xt_symbol], true)
      else
        (s1, [], false)

/-- One scan cycle's verification/execution phase over the admitted
pair roster (`TradingBot.scan_dex_pairs`, `bot.py`, lines 189–217).
The batches are driven by a single cooperative scheduler and no await
separates a task's verification from its state mutations — no task
reads the trade list or counters between another task's read and write
— so every schedule produces the same appends and increments as the
sequential fold modelled here. -/
def process_pairs (cfg : BotConfig) (env : BotEnv) (s : BotState) :
    List PairData → BotState × List Event
  | [] => (s, [])
  | p :: ps =>
    let first := process_dex_pair cfg env s p
    let rest := process_pairs cfg env first.1 ps
    (rest.1, first.2.1 ++ rest.2)

/-- A raw pair object as returned by the aggregator search API, with
the fields `dex_client.py` reads while aggregating
(`pairAddress`, `chainId`) and representative market fields. -/
structure RawPair where
  pairAddress : String
  chainId : String
  priceUsd : ℚ
  liquidityUsd : ℚ
  deriving Repr, DecidableEq

/-- The duplicate-removal loop shared by `DexClient.get_latest_pairs`
(lines 96–104) and `DexClient.get_latest_pairs_async` (lines 188–195):
walk the aggregate list keeping a pair only when its `pairAddress` is
non-empty and unseen. -/
def dedupByPairAddress : List String → List RawPair → List RawPair
  | _, [] => []
  | seen, p :: ps =>
    if p.pairAddress ≠ "" ∧ p.pairAddress ∉ seen then
      p :: dedupByPairAddress (p.pairAddress :: seen) ps
    else
      dedupByPairAddress seen ps

/-- Model of `DexClient.get_latest_pairs` (`dex_client.py`, lines 76–109) from
the point the per-chain and trending query results are in hand: extend
the aggregate with each chain's pairs, then the trending pairs,
deduplicate by pair address and truncate to 100. -/
def get_latest_pairs (chain_results : List (List RawPair))
    (trending : List RawPair) : List RawPair :=
  (dedupByPairAddress [] (chain_results.flatten ++ trending)).take 100

/-- Model of `DexClient.get_latest_pairs_async` (`dex_client.py`, lines 171–201)
from the point the per-chain results are in hand: merge the per-chain
lists, deduplicate by pair address and truncate to 100. -/
def get_latest_pairs_async (chain_results : List (List RawPair)) : List RawPair :=
  (dedupByPairAddress [] chain_results.flatten).take 100

/-- Number of pairs in `l` carrying pair address `a`. -/
def countAddr (l : List RawPair) (a : String) : ℕ :=
  (l.filter (fun p => p.pairAddress == a)).length

/-- The default configuration with the live-trading switch turned on
(`ALLOW_LIVE_TRADING=true` in the environment). -/
def cfgLive : BotConfig := { defaultConfig with allow_live_trading := true }

/-- A concrete CEX ticker at price `0.98`. -/
def goodTicker : XtData := { price := 49/50 }

/-- A concrete DEX pair passing every admission criterion against
`goodTicker` under the default thresholds: spread `100/49 ≈ 2.04 %`
inside the `[2, 3]` band, liquidity and volume above their minima. -/
def goodPair : PairData :=
  { chain := "ethereum", dex := "uniswap",
    base_token := { address := "0xaaa1", symbol := "ABC" },
    price_usd := 1, liquidity_usd := 20000, volume_24h := 100000 }

/-- A second, distinct DEX pair (different pair/token address, e.g. the
same token on another venue) whose base token resolves to the same CEX
symbol `ABC_USDT` as `goodPair`. -/
def twinPair : PairData :=
  { goodPair with base_token := { address := "0xaaa2", symbol := "ABC" } }

/-- An environment in which `ABC_USDT` is listed at `goodTicker`'s
price, the order book is available, and the exchange acknowledges every
submitted order. -/
def envTwin : BotEnv :=
  { find_symbol_by_address := fun _ => some "ABC_USDT",
    get_ticker := fun sym => if sym = "ABC_USDT" then some goodTicker else none,
    get_orderbook := fun _ => some { bids := [(1, 1)], asks := [(1, 1)] },
    submit_order := fun _ => some { order_id := some "ord-1" } }

/-- An environment whose order-book endpoint is down (always absent). -/
def envNoBook : BotEnv :=
  { envTwin with get_orderbook := fun _ => none }

/-- A concrete signal-data snapshot (as built by `process_dex_pair` for
`goodPair` against `goodTicker`). -/
def goodSignal : SignalData :=
  { chain := "ethereum", dex := "uniswap", base_token := goodPair.base_token,
    spread := 100/49, dex_price := 1, cex_price := 49/50,
    liquidity := 20000, volume_24h := 100000, action := .execute,
    reasons := [.allCriteriaMet] }

/-- A DEX pair with ample spread source data but zero liquidity and
volume, quoted against a CEX price of `2`: against `price_usd = 1` the
spread is `50 %`, far above `max_spread`. -/
def illiquidPair : PairData :=
  { chain := "ethereum", dex := "uniswap",
    base_token := { address := "0xbbb1", symbol := "XYZ" },
    price_usd := 1, liquidity_usd := 0, volume_24h := 0 }

/-- A concrete CEX ticker at price `2`. -/
def highTicker : XtData := { price := 2 }

/-- The signal data `process_dex_pair` builds for `twinPair` against
`goodTicker` with live trading on. -/
def twinSignal : SignalData := { goodSignal with base_token := twinPair.base_token }

/-- The market order request `place_order` assembles for a `SELL` of
100 units of `ABC_USDT`. -/
def reqSell : OrderRequest :=
  { symbol := "ABC_USDT", side := "SELL".toUpper, order_type := "MARKET".toUpper,
    quantity := 100, price := none, time_in_force := none }

/-- The trade record appended for `goodPair`'s opportunity. -/
def recGood : TradeRecord :=
  { symbol := "ABC_USDT", side := "SELL", quantity := 100,
    order_id := "ord-1", signal_data := goodSignal }

/-- The trade record appended for `twinPair`'s copy of the same
opportunity. -/
def recTwin : TradeRecord := { recGood with signal_data := twinSignal }

/-- Claim C10: `calculate_spread` is total — it returns `0` at
`cex_price = 0` instead of failing — and its value is non-negative for
all inputs. -/
theorem calculate_spread_total_nonneg :
    (∀ d : ℚ, calculate_spread d 0 = 0) ∧
    (∀ d c : ℚ, 0 ≤ calculate_spread d c) := by
  constructor
  · intro d
    simp [calculate_spread]
  · intro d c
    unfold calculate_spread
    split_ifs with h
    · exact le_refl 0
    · exact abs_nonneg _

/-- Claim C5 (counterexample): at `dex_price = 0`, `cex_price = -1` the
code returns `100` while the claimed formula
`|dex - cex| / cex * 100` yields `-100`; the claim fails for negative
`cex_price`. -/
theorem spread_formula_fails_neg_cex :
    calculate_spread 0 (-1) ≠ |(0 : ℚ) - (-1)| / (-1) * 100 := by
  norm_num [calculate_spread]

/-- Claim C5 (amended): for every `dex_price` and every positive
`cex_price`, the computed spread equals
`|dex_price - cex_price| / cex_price * 100` exactly (and the formula is
asymmetric under swapping the two arguments, e.g. at `(1, 2)` vs
`(2, 1)`); for negative `cex_price` the code instead anchors to
`|cex_price|`. -/
theorem calculate_spread_formula_pos (d c : ℚ) (h : 0 < c) :
    calculate_spread d c = |d - c| / c * 100 ∧
    calculate_spread 1 2 ≠ calculate_spread 2 1 := by
  constructor
  · unfold calculate_spread
    rw [if_neg (ne_of_gt h)]
    rw [abs_mul, abs_div, abs_of_pos h]
    norm_num
  · norm_num [calculate_spread]

/-- Closed instance of `calculate_spread_formula_pos` at `d = 1`,
`c = 2`: the spread is `|1 - 2| / 2 * 100 = 50`. -/
theorem calculate_spread_formula_pos_witness :
    calculate_spread 1 2 = |(1 : ℚ) - 2| / 2 * 100 :=
  (calculate_spread_formula_pos 1 2 (by norm_num)).1

/-- Claim C7: when the CEX quote is absent, `verify_signal` returns
action `Skip`, exactly the single "not listed" reason, and spread `0`. -/
theorem quote_absent_skip (cfg : BotConfig) (dd : PairData) :
    (verify_signal cfg dd none).action = .skip ∧
    (verify_signal cfg dd none).reasons = [.notListed] ∧
    (verify_signal cfg dd none).spread = 0 :=
  ⟨rfl, rfl, rfl⟩

/-- Claim C4: with the live-trading switch disabled, `place_order`
returns `none` and submits nothing, for every symbol, side, order type,
quantity, price and exchange behaviour. -/
theorem place_order_disabled (submit : OrderRequest → Option OrderAck)
    (symbol side order_type : String) (quantity : ℚ) (price : Option ℚ) :
    place_order false submit symbol side order_type quantity price = (none, []) :=
  rfl

/-- The spread of a DEX price `1` against a CEX price `2` is `50 %`. -/
theorem spread_val_1_2 : calculate_spread 1 2 = 50 := by
  unfold calculate_spread
  rw [if_neg (by norm_num), abs_of_neg (by norm_num)]
  norm_num

/-- The spread of a DEX price `1` against a CEX price `0.98` is
`100/49 ≈ 2.04 %`. -/
theorem spread_val_good : calculate_spread 1 (49/50) = 100/49 := by
  unfold calculate_spread
  rw [if_neg (by norm_num), abs_of_pos (by norm_num)]
  norm_num

/-- Concrete evaluation: `illiquidPair` against the quote at `2` under
the default thresholds lands in the spread-too-high branch. -/
theorem verify_illiquid_high_eval :
    verify_signal defaultConfig illiquidPair (some highTicker) =
      { valid := false, action := .notify, reasons := [.spreadTooHigh],
        spread := 50, dex_price := 1, cex_price := 2 } := by
  simp only [verify_signal, illiquidPair, highTicker, defaultConfig]
  norm_num [spread_val_1_2]

/-- Concrete evaluation: `illiquidPair` against `goodTicker` (spread in
band) under the default thresholds fails on liquidity. -/
theorem verify_illiquid_good_eval :
    verify_signal defaultConfig illiquidPair (some goodTicker) =
      { valid := false, action := .skip, reasons := [.liquidityTooLow],
        spread := 100/49, dex_price := 1, cex_price := 49/50 } := by
  simp only [verify_signal, illiquidPair, goodTicker, defaultConfig]
  norm_num [spread_val_good]

/-- Concrete evaluation: `goodPair` against `goodTicker` is admitted;
with live trading off the action is `Notify`. -/
theorem verify_good_default_eval :
    verify_signal defaultConfig goodPair (some goodTicker) =
      { valid := true, action := .notify, reasons := [.allCriteriaMet],
        spread := 100/49, dex_price := 1, cex_price := 49/50 } := by
  simp only [verify_signal, goodPair, goodTicker, defaultConfig]
  norm_num [spread_val_good]

/-- Concrete evaluation: `goodPair` against `goodTicker` is admitted;
with live trading on the action is `Execute`. -/
theorem verify_good_live_eval :
    verify_signal cfgLive goodPair (some goodTicker) =
      { valid := true, action := .execute, reasons := [.allCriteriaMet],
        spread := 100/49, dex_price := 1, cex_price := 49/50 } := by
  simp only [verify_signal, cfgLive, goodPair, goodTicker, defaultConfig]
  norm_num [spread_val_good]

/-- Claim C2 (counterexample): under the default thresholds,
`illiquidPair` (liquidity `0 < 10000`) against a quote at price `2`
produces a `50 %` spread above `max_spread`, and `verify_signal`
answers `Notify`, not `Skip` — the spread-band check precedes the
liquidity check, so "Skip regardless of spread" fails. -/
theorem notify_despite_low_liquidity :
    illiquidPair.liquidity_usd < defaultConfig.min_liquidity ∧
    illiquidPair.volume_24h < defaultConfig.min_volume ∧
    (verify_signal defaultConfig illiquidPair (some highTicker)).action = .notify ∧
    (verify_signal defaultConfig illiquidPair (some highTicker)).action ≠ .skip := by
  refine ⟨by norm_num [illiquidPair, defaultConfig],
          by norm_num [illiquidPair, defaultConfig], ?_, ?_⟩
  all_goals rw [verify_illiquid_high_eval]
  simp

/-- Claim C2 (amended): for every pair and quote, if liquidity or
24h-volume is below its threshold and the computed spread does not
exceed `max_spread`, then `verify_signal` returns action `Skip`; when
the spread exceeds `max_spread` the spread-band check fires first and
the action is `Notify` instead. -/
theorem low_liquidity_or_volume_skip (cfg : BotConfig) (pair : PairData)
    (xt : XtData) (_hc : xt.price ≠ 0) (_hd : pair.price_usd ≠ 0)
    (hsp : calculate_spread pair.price_usd xt.price ≤ cfg.max_spread)
    (hlv : pair.liquidity_usd < cfg.min_liquidity ∨ pair.volume_24h < cfg.min_volume) :
    (verify_signal cfg pair (some xt)).action = .skip := by
  simp only [verify_signal]
  split_ifs with h0 h1 h2 h3 h4 h5
  · rfl
  · rfl
  · exact absurd h2 (not_lt.mpr hsp)
  · rfl
  · rfl
  · rcases hlv with h | h
    · exact absurd h h3
    · exact absurd h h4
  · rcases hlv with h | h
    · exact absurd h h3
    · exact absurd h h4

/-- Closed instance of `low_liquidity_or_volume_skip`: `illiquidPair`
against `goodTicker` (price `0.98`, spread `100/49` within the band)
with liquidity `0` yields `Skip`. -/
theorem low_liquidity_or_volume_skip_witness :
    (verify_signal defaultConfig illiquidPair (some goodTicker)).action = .skip :=
  low_liquidity_or_volume_skip defaultConfig illiquidPair goodTicker
    (by norm_num [goodTicker]) (by norm_num [illiquidPair])
    (by simp only [illiquidPair, goodTicker, defaultConfig]
        rw [spread_val_good]
        norm_num)
    (Or.inl (by norm_num [illiquidPair, defaultConfig]))

/-- Claim C3: for valid non-zero prices, a spread strictly below
`min_spread` yields `Skip`; a spread strictly above `max_spread` never
yields `Execute` (whatever the live-trading switch), and — the spread
band being non-degenerate — yields exactly `Notify`. -/
theorem spread_band_actions (cfg : BotConfig) (pair : PairData) (xt : XtData)
    (hc : xt.price ≠ 0) (hd : pair.price_usd ≠ 0) :
    (calculate_spread pair.price_usd xt.price < cfg.min_spread →
      (verify_signal cfg pair (some xt)).action = .skip) ∧
    (calculate_spread pair.price_usd xt.price > cfg.max_spread →
      (verify_signal cfg pair (some xt)).action ≠ .execute) ∧
    (cfg.min_spread ≤ cfg.max_spread →
      calculate_spread pair.price_usd xt.price > cfg.max_spread →
      (verify_signal cfg pair (some xt)).action = .notify) := by
  refine ⟨?_, ?_, ?_⟩
  · intro hlow
    simp only [verify_signal]
    split_ifs <;> rfl
  · intro hhigh
    simp only [verify_signal]
    split_ifs <;> simp
  · intro hband hhigh
    simp only [verify_signal]
    split_ifs with h0 h1
    · rcases h0 with h | h
      · exact absurd h hc
      · exact absurd h hd
    · exact absurd hhigh (not_lt.mpr (le_of_lt (lt_of_lt_of_le h1 hband)))
    · rfl

/-- Closed instance of `spread_band_actions`: `illiquidPair` against
the quote at `2` (spread `50 %`, above `max_spread = 3`) yields an
action that is not `Execute`. -/
theorem spread_band_actions_witness :
    (verify_signal defaultConfig illiquidPair (some highTicker)).action ≠ .execute :=
  (spread_band_actions defaultConfig illiquidPair highTicker
    (by norm_num [highTicker]) (by norm_num [illiquidPair])).2.1
    (by simp only [illiquidPair, highTicker, defaultConfig]
        rw [spread_val_1_2]
        norm_num)

/-- Claim C6: whenever `verify_signal` answers `Execute`, the result is
marked valid and the live-trading switch was enabled at verification
time; and the converse need not hold — there are inputs producing a
valid result with action `Notify` under a disabled live-trading
switch. -/
theorem execute_implies_valid_live :
    (∀ (cfg : BotConfig) (dd : PairData) (xt : Option XtData),
      (verify_signal cfg dd xt).action = .execute →
      (verify_signal cfg dd xt).valid = true ∧ cfg.allow_live_trading = true) ∧
    (∃ (cfg : BotConfig) (dd : PairData) (xt : Option XtData),
      (verify_signal cfg dd xt).valid = true ∧
      (verify_signal cfg dd xt).action = .notify ∧
      cfg.allow_live_trading = false) := by
  constructor
  · intro cfg dd xt h
    cases xt with
    | none => simp [verify_signal] at h
    | some t =>
      simp only [verify_signal] at h ⊢
      split_ifs at h ⊢ with h0 h1 h2 h3 h4 h5
      all_goals simp_all
  · exact ⟨defaultConfig, goodPair, some goodTicker,
      by rw [verify_good_default_eval], by rw [verify_good_default_eval], rfl⟩

/-- Closed instance of `execute_implies_valid_live`: with live trading
on, `goodPair` against `goodTicker` verifies to `Execute`, hence valid
with the switch on. -/
theorem execute_implies_valid_live_witness :
    (verify_signal cfgLive goodPair (some goodTicker)).valid = true ∧
    cfgLive.allow_live_trading = true :=
  execute_implies_valid_live.1 cfgLive goodPair (some goodTicker)
    (by rw [verify_good_live_eval])

/-- The event trace of `execute_trade` is either empty (gate taken
before the order-book fetch) or starts with the order-book fetch. -/
theorem execute_trade_events_shape (cfg : BotConfig) (env : BotEnv) (sym : String)
    (sig : SignalData) (s : BotState) :
    (execute_trade cfg env sym sig s).2 = [] ∨
    ∃ tail, (execute_trade cfg env sym sig s).2 = Event.fetchOrderbook sym :: tail := by
  simp only [execute_trade]
  split_ifs with hl hside
  · exact Or.inl rfl
  · split
    · exact Or.inr ⟨[], rfl⟩
    · split
      · exact Or.inr ⟨_, rfl⟩
      · exact Or.inr ⟨_, rfl⟩
  · split
    · exact Or.inr ⟨[], rfl⟩
    · split
      · exact Or.inr ⟨_, rfl⟩
      · exact Or.inr ⟨_, rfl⟩

/-- Claim C8: in `execute_trade`, an absent order book aborts the trade
with the state (trade list and counters) unchanged and no order
submitted; and any order submission happens only after a successful
order-book fetch, which heads the event trace. -/
theorem orderbook_absent_aborts (cfg : BotConfig) (env : BotEnv) (sym : String)
    (sig : SignalData) (s : BotState) :
    (env.get_orderbook sym = none →
      (execute_trade cfg env sym sig s).1 = s ∧
      ∀ req, Event.submitOrder req ∉ (execute_trade cfg env sym sig s).2) ∧
    (∀ req, Event.submitOrder req ∈ (execute_trade cfg env sym sig s).2 →
      env.get_orderbook sym ≠ none ∧
      ((execute_trade cfg env sym sig s).2).head? = some (.fetchOrderbook sym)) := by
  constructor
  · intro hob
    simp only [execute_trade, hob]
    split_ifs with hl
    · exact ⟨rfl, fun req h => by simp at h⟩
    · exact ⟨rfl, fun req h => by simp at h⟩
  · intro req hmem
    constructor
    · intro hob
      simp only [execute_trade, hob] at hmem
      split_ifs at hmem with hl
      · simp at hmem
      · simp at hmem
    · rcases execute_trade_events_shape cfg env sym sig s with h | ⟨tail, h⟩
      · rw [h] at hmem
        simp at hmem
      · rw [h]
        rfl

/-- Closed instance of `orderbook_absent_aborts`: with the order-book
endpoint down, a trade for `ABC_USDT` leaves the fresh state
untouched. -/
theorem orderbook_absent_aborts_witness :
    (execute_trade cfgLive envNoBook "ABC_USDT" goodSignal initialState).1 =
      initialState :=
  ((orderbook_absent_aborts cfgLive envNoBook "ABC_USDT" goodSignal
      initialState).1 rfl).1

/-- In the output of the deduplication loop, an address already seen
never occurs. -/
theorem countAddr_dedup_of_mem (a : String) :
    ∀ (l : List RawPair) (seen : List String), a ∈ seen →
      countAddr (dedupByPairAddress seen l) a = 0
  | [], _, _ => rfl
  | p :: ps, seen, ha => by
    simp only [dedupByPairAddress]
    split_ifs with hcond
    · have hne : (p.pairAddress == a) = false := by
        simp only [beq_eq_false_iff_ne, ne_eq]
        intro he
        exact hcond.2 (he ▸ ha)
      simp only [countAddr, List.filter_cons, hne]
      exact countAddr_dedup_of_mem a ps (p.pairAddress :: seen)
        (List.mem_cons_of_mem _ ha)
    · exact countAddr_dedup_of_mem a ps seen ha

/-- In the output of the deduplication loop, every address occurs at
most once. -/
theorem countAddr_dedup_le_one (a : String) :
    ∀ (l : List RawPair) (seen : List String),
      countAddr (dedupByPairAddress seen l) a ≤ 1
  | [], _ => by simp [countAddr, dedupByPairAddress]
  | p :: ps, seen => by
    simp only [dedupByPairAddress]
    split_ifs with hcond
    · by_cases hpa : p.pairAddress = a
      · have h0 := countAddr_dedup_of_mem a ps (p.pairAddress :: seen)
          (by rw [hpa]; exact List.mem_cons_self _ _)
        simp only [countAddr, List.filter_cons, hpa, beq_self_eq_true, if_pos,
          List.length_cons] at *
        omega
      · have hne : (p.pairAddress == a) = false := by
          simp only [beq_eq_false_iff_ne, ne_eq]
          exact hpa
        simp only [countAddr, List.filter_cons, hne]
        exact countAddr_dedup_le_one a ps _
    · exact countAddr_dedup_le_one a ps seen

/-- Truncating a list cannot increase an address's occurrence count. -/
theorem countAddr_take_le (l : List RawPair) (n : ℕ) (a : String) :
    countAddr (l.take n) a ≤ countAddr l a :=
  List.Sublist.length_le (List.Sublist.filter _ (List.take_sublist n l))

/-- Claim C9: whatever raw pair lists the per-chain and trending
queries return, the aggregate list handed to the caller — by the
synchronous and by the concurrent fetcher — contains at most one pair
per pair address. -/
theorem pairs_deduplicated :
    (∀ (chains : List (List RawPair)) (trending : List RawPair) (a : String),
      countAddr (get_latest_pairs chains trending) a ≤ 1) ∧
    (∀ (chains : List (List RawPair)) (a : String),
      countAddr (get_latest_pairs_async chains) a ≤ 1) := by
  constructor
  · intro chains trending a
    exact le_trans (countAddr_take_le _ 100 a) (countAddr_dedup_le_one a _ [])
  · intro chains a
    exact le_trans (countAddr_take_le _ 100 a) (countAddr_dedup_le_one a _ [])

/-- The derived boolean equality on `Action` is reflexive at
`execute`. -/
theorem action_beq_exec : (Action.execute == Action.execute) = true := rfl

/-- Concrete evaluation of one `process_dex_pair` step on `goodPair`
with live trading on: the pair is admitted with `Execute`, the trade
goes through, and the three counters bump. -/
theorem process_good_step (s : BotState) :
    process_dex_pair cfgLive envTwin s goodPair =
      ({ stats := { signals_processed := s.stats.signals_processed + 1,
                    signals_valid := s.stats.signals_valid + 1,
                    trades_executed := s.stats.trades_executed + 1,
                    errors_count := s.stats.errors_count },
         trades := s.trades ++ [recGood] },
       [.signalNote "ABC_USDT", .fetchOrderbook "ABC_USDT", .submitOrder reqSell,
        .tradeNote "ABC_USDT" "SELL" 100 "ord-1"], true) := by
  have h1 : ¬((49 : ℚ)/50 = 0) := by norm_num
  have h2 : ¬((1 : ℚ) = 0) := by norm_num
  have h3 : ¬((100 : ℚ)/49 < 2) := by norm_num
  have h4 : ¬((3 : ℚ) < 100/49) := by norm_num
  have h5 : ¬((20000 : ℚ) < 10000) := by norm_num
  have h6 : ¬((100000 : ℚ) < 50000) := by norm_num
  have h7 : ¬((1 : ℚ) < 49/50) := by norm_num
  simp [process_dex_pair, envTwin, goodPair, goodTicker, cfgLive, defaultConfig,
    verify_signal, should_execute_trade, execute_trade, place_order, spread_val_good,
    recGood, reqSell, goodSignal, Option.getD, action_beq_exec, h1, h2, h3, h4, h5, h6, h7]

/-- Concrete evaluation of one `process_dex_pair` step on `twinPair`:
the same symbol `ABC_USDT` is resolved, admitted and executed again. -/
theorem process_twin_step (s : BotState) :
    process_dex_pair cfgLive envTwin s twinPair =
      ({ stats := { signals_processed := s.stats.signals_processed + 1,
                    signals_valid := s.stats.signals_valid + 1,
                    trades_executed := s.stats.trades_executed + 1,
                    errors_count := s.stats.errors_count },
         trades := s.trades ++ [recTwin] },
       [.signalNote "ABC_USDT", .fetchOrderbook "ABC_USDT", .submitOrder reqSell,
        .tradeNote "ABC_USDT" "SELL" 100 "ord-1"], true) := by
  have h1 : ¬((49 : ℚ)/50 = 0) := by norm_num
  have h2 : ¬((1 : ℚ) = 0) := by norm_num
  have h3 : ¬((100 : ℚ)/49 < 2) := by norm_num
  have h4 : ¬((3 : ℚ) < 100/49) := by norm_num
  have h5 : ¬((20000 : ℚ) < 10000) := by norm_num
  have h6 : ¬((100000 : ℚ) < 50000) := by norm_num
  have h7 : ¬((1 : ℚ) < 49/50) := by norm_num
  simp [process_dex_pair, envTwin, twinPair, goodPair, goodTicker, cfgLive,
    defaultConfig, verify_signal, should_execute_trade, execute_trade, place_order,
    spread_val_good, recTwin, recGood, reqSell, twinSignal, goodSignal, Option.getD,
    action_beq_exec, h1, h2, h3, h4, h5, h6, h7]

/-- Claim C1 (failing input): two distinct DEX pairs (`goodPair`,
`twinPair`) resolving to the same CEX symbol `ABC_USDT`, both admitted
with `Execute` in the same scan cycle, produce TWO trade records for
that symbol and TWO order submissions — there is no semaphore or
per-symbol deduplication in the cycle, so the at-most-once guarantee
does not hold. -/
theorem same_symbol_double_execution :
    goodPair ≠ twinPair ∧
    recGood.symbol = "ABC_USDT" ∧ recTwin.symbol = "ABC_USDT" ∧
    (process_pairs cfgLive envTwin initialState [goodPair, twinPair]).1.trades =
      [recGood, recTwin] ∧
    (process_pairs cfgLive envTwin initialState
        [goodPair, twinPair]).1.stats.trades_executed = 2 ∧
    ((process_pairs cfgLive envTwin initialState [goodPair, twinPair]).2.filter
        (fun e => match e with
          | Event.submitOrder req => req.symbol == "ABC_USDT"
          | _ => false)).length = 2 := by
  refine ⟨by simp [goodPair, twinPair], rfl, rfl, ?_, ?_, ?_⟩ <;>
    simp [process_pairs, process_good_step, process_twin_step, initialState, reqSell]

end Bott
